import Mathlib

/- Verification of the AIpStack DHCP client (IpDhcpClient) against its specification.

   The development shallowly embeds the client: IPv4 addresses and all machine
   integers are Nat values understood as their uint8/uint32/uint64 contents, with
   explicit `% 2^w` exactly where the C++ code performs a narrowing conversion.
   Stateful member functions become pure functions from an explicit client-state
   record (plus the inputs the member function reads: current time, received
   message, ...) to the updated record together with a record of the observable
   effects (messages sent, timer armed, user event reported). -/

/-- 2^32, the modulus of uint32 arithmetic. -/
def u32Mod : Nat := 2 ^ 32

/-- An IPv4 address built from four octets, as its big-endian uint32 value
(Ip4Addr construction from octets). -/
def Ip4Addr_mk (a b c d : Nat) : Nat := ((a * 256 + b) * 256 + c) * 256 + d

/-- Ip4Addr::AllOnesAddr(), the address 255.255.255.255. -/
def allOnes32 : Nat := u32Mod - 1

/-- Ip4Addr::PrefixMask(n): the 32-bit mask with n leading one bits (n ≤ 32). -/
def prefixMask32 (n : Nat) : Nat := u32Mod - 2 ^ (32 - n)

/-- Helper for countLeadingOnes32: count consecutive set bits of a downward
from bit k-1. -/
def clo32_aux : Nat → Nat → Nat
  | 0, _ => 0
  | k + 1, a => if a.testBit k then 1 + clo32_aux k a else 0

/-- Ip4Addr::countLeadingOnes(): number of leading one bits of a 32-bit value. -/
def countLeadingOnes32 (a : Nat) : Nat := clo32_aux 32 a

/-- Bitwise complement within 32 bits (operator~ on Ip4Addr). -/
def compl32 (m : Nat) : Nat := Nat.xor allOnes32 m

/-- Ip4Addr::Join(mask, first, second) = (first AND mask) OR (second AND NOT mask). -/
def join32 (mask first second : Nat) : Nat :=
  Nat.lor (Nat.land first mask) (Nat.land second (compl32 mask))

/-- DhcpRecvOptions: the decoded DHCP options the client consumes. The
source keeps each option's presence in a nested `have` struct; here the
presence flags are flattened into have_* fields alongside the values.
have_dns_servers is the count of received DNS servers (a uint8 used as a
count in the source). -/
structure DhcpRecvOptions where
  have_dhcp_message_type : Bool
  dhcp_message_type : Nat
  have_dhcp_server_identifier : Bool
  dhcp_server_identifier : Nat
  have_ip_address_lease_time : Bool
  ip_address_lease_time : Nat
  have_renewal_time : Bool
  renewal_time : Nat
  have_rebinding_time : Bool
  rebinding_time : Nat
  have_subnet_mask : Bool
  subnet_mask : Nat
  have_router : Bool
  router : Nat
  have_dns_servers : Nat
  dns_servers : List Nat
  deriving DecidableEq, Repr

/-- DHCP message type codes (DhcpMessageType in DhcpProto.h). -/
def MsgDiscover : Nat := 1

/-- DHCPOFFER message type code. -/
def MsgOffer : Nat := 2

/-- DHCPREQUEST message type code. -/
def MsgRequest : Nat := 3

/-- DHCPDECLINE message type code. -/
def MsgDecline : Nat := 4

/-- DHCPACK message type code. -/
def MsgAck : Nat := 5

/-- DHCPNAK message type code. -/
def MsgNak : Nat := 6

/-- DefaultRenewTimeForLeaseTime: default renewal time when the server did
not specify one. -/
def DefaultRenewTimeForLeaseTime (lease_time_s : Nat) : Nat := lease_time_s / 2

/-- DefaultRebindingTimeForLeaseTime: default rebinding time when the server
did not specify one. The source computes uint32(uint64(lease_time_s) * 7 / 8);
the final narrowing to uint32 is the `% u32Mod`. -/
def DefaultRebindingTimeForLeaseTime (lease_time_s : Nat) : Nat :=
  (lease_time_s * 7 / 8) % u32Mod

/-- checkOffer: sanity checks of the offered IP address (not zero, not
all-ones, not loopback 127.0.0.0/8, not multicast 224.0.0.0/4). -/
def checkOffer (addr : Nat) : Bool :=
  if addr = 0 ∨ addr = allOnes32 then false
  else if Nat.land addr (prefixMask32 8) = Ip4Addr_mk 127 0 0 0 then false
  else if Nat.land addr (prefixMask32 4) = Ip4Addr_mk 224 0 0 0 then false
  else true

/-- checkAndFixupAck: validation and fix-up of the address information in an
ACK. The source takes opts by reference, mutates it and returns bool; here
`none` is rejection and `some opts2` is acceptance with the fixed-up options. -/
def checkAndFixupAck (addr : Nat) (opts : DhcpRecvOptions) : Option DhcpRecvOptions :=
  if !(checkOffer addr) then none
  else if !opts.have_ip_address_lease_time then none
  else
    let maskOpt : Option Nat :=
      if !opts.have_subnet_mask then
        if addr < Ip4Addr_mk 128 0 0 0 then some (Ip4Addr_mk 255 0 0 0)
        else if addr < Ip4Addr_mk 192 0 0 0 then some (Ip4Addr_mk 255 255 0 0)
        else if addr < Ip4Addr_mk 224 0 0 0 then some (Ip4Addr_mk 255 255 255 0)
        else none
      else some opts.subnet_mask
    match maskOpt with
    | none => none
    | some mask =>
      if mask ≠ prefixMask32 (countLeadingOnes32 mask) then none
      else
        let local_bcast := join32 mask addr allOnes32
        if addr = local_bcast then none
        else
          let hr := opts.have_router &&
            decide (Nat.land opts.router mask = Nat.land addr mask)
          let renewal_raw :=
            if !opts.have_renewal_time then
              DefaultRenewTimeForLeaseTime opts.ip_address_lease_time
            else opts.renewal_time
          let renewal := min opts.ip_address_lease_time renewal_raw
          let rebinding_raw :=
            if !opts.have_rebinding_time then
              DefaultRebindingTimeForLeaseTime opts.ip_address_lease_time
            else opts.rebinding_time
          let rebinding := max renewal (min opts.ip_address_lease_time rebinding_raw)
          some { opts with
                 subnet_mask := mask, have_router := hr,
                 renewal_time := renewal, rebinding_time := rebinding }

example : checkOffer (Ip4Addr_mk 192 0 2 10) = true := by decide
example : checkOffer (Ip4Addr_mk 224 0 0 5) = false := by decide
example : checkOffer (Ip4Addr_mk 127 0 0 1) = false := by decide

/-- Concrete received ACK options used as a test vector: lease 3600 s, no
renewal/rebinding time, no subnet mask, no router. -/
def testAckOpts : DhcpRecvOptions :=
  { have_dhcp_message_type := true, dhcp_message_type := MsgAck,
    have_dhcp_server_identifier := true, dhcp_server_identifier := Ip4Addr_mk 192 0 2 1,
    have_ip_address_lease_time := true, ip_address_lease_time := 3600,
    have_renewal_time := false, renewal_time := 0,
    have_rebinding_time := false, rebinding_time := 0,
    have_subnet_mask := false, subnet_mask := 0,
    have_router := false, router := 0,
    have_dns_servers := 0, dns_servers := [] }

/-- The fixed-up options produced from testAckOpts for address 192.0.2.10. -/
def testAckFixed : DhcpRecvOptions :=
  { testAckOpts with
    subnet_mask := Ip4Addr_mk 255 255 255 0,
    renewal_time := 1800, rebinding_time := 3150 }

example : checkAndFixupAck (Ip4Addr_mk 192 0 2 10) testAckOpts = some testAckFixed := by
  decide

/-- C1: every ACK that checkAndFixupAck accepts satisfies
renewal_time_s ≤ rebinding_time_s ≤ lease_time_s; the renewal time defaults to
lease_time_s / 2 when absent and is capped at lease_time_s, and the rebinding
time defaults to lease_time_s * 7 / 8 when absent and is clamped into
[renewal_time_s, lease_time_s]. -/
theorem checkAndFixupAck_time_order (addr : Nat) (opts opts' : DhcpRecvOptions)
    (hlease : opts.ip_address_lease_time < u32Mod)
    (h : checkAndFixupAck addr opts = some opts') :
    opts'.ip_address_lease_time = opts.ip_address_lease_time ∧
    opts'.renewal_time ≤ opts'.rebinding_time ∧
    opts'.rebinding_time ≤ opts'.ip_address_lease_time ∧
    (opts.have_renewal_time = false →
      opts'.renewal_time =
        min opts.ip_address_lease_time (opts.ip_address_lease_time / 2)) ∧
    (opts.have_rebinding_time = false →
      opts'.rebinding_time = max opts'.renewal_time
        (min opts.ip_address_lease_time (opts.ip_address_lease_time * 7 / 8))) := by
  have hmod : opts.ip_address_lease_time * 7 / 8 % u32Mod =
      opts.ip_address_lease_time * 7 / 8 := by
    have hu : u32Mod = 2 ^ 32 := rfl
    apply Nat.mod_eq_of_lt
    omega
  simp only [checkAndFixupAck] at h
  split at h
  · exact absurd h (by simp)
  · split at h
    · exact absurd h (by simp)
    · split at h
      · exact absurd h (by simp)
      · rename_i mask hmask
        split at h
        · exact absurd h (by simp)
        · split at h
          · exact absurd h (by simp)
          · rw [Option.some_inj] at h
            subst h
            refine ⟨rfl, le_max_left _ _, max_le (min_le_left _ _) (min_le_left _ _),
              ?_, ?_⟩
            · intro hrt
              simp [hrt, DefaultRenewTimeForLeaseTime]
            · intro hrt
              simp [hrt, DefaultRebindingTimeForLeaseTime, hmod]

/-- Witness for C1 at the concrete ACK testAckOpts and address 192.0.2.10. -/
theorem checkAndFixupAck_time_order_witness :
    testAckFixed.ip_address_lease_time = testAckOpts.ip_address_lease_time ∧
    testAckFixed.renewal_time ≤ testAckFixed.rebinding_time ∧
    testAckFixed.rebinding_time ≤ testAckFixed.ip_address_lease_time ∧
    (testAckOpts.have_renewal_time = false →
      testAckFixed.renewal_time =
        min testAckOpts.ip_address_lease_time (testAckOpts.ip_address_lease_time / 2)) ∧
    (testAckOpts.have_rebinding_time = false →
      testAckFixed.rebinding_time = max testAckFixed.renewal_time
        (min testAckOpts.ip_address_lease_time
          (testAckOpts.ip_address_lease_time * 7 / 8))) :=
  checkAndFixupAck_time_order (Ip4Addr_mk 192 0 2 10) testAckOpts testAckFixed
    (by decide) (by decide)

/-- Helper: on any accepted ACK the resulting subnet mask is exactly the one
selected by the mask-defaulting chain of checkAndFixupAck. -/
theorem checkAndFixupAck_mask_eq (addr : Nat) (opts opts' : DhcpRecvOptions)
    (h : checkAndFixupAck addr opts = some opts') :
    (if !opts.have_subnet_mask then
       if addr < Ip4Addr_mk 128 0 0 0 then some (Ip4Addr_mk 255 0 0 0)
       else if addr < Ip4Addr_mk 192 0 0 0 then some (Ip4Addr_mk 255 255 0 0)
       else if addr < Ip4Addr_mk 224 0 0 0 then some (Ip4Addr_mk 255 255 255 0)
       else none
     else some opts.subnet_mask) = some opts'.subnet_mask := by
  simp only [checkAndFixupAck] at h
  split at h
  · exact absurd h (by simp)
  split at h
  · exact absurd h (by simp)
  split at h
  · exact absurd h (by simp)
  rename_i mask hmask
  split at h
  · exact absurd h (by simp)
  split at h
  · exact absurd h (by simp)
  rw [Option.some_inj] at h
  subst h
  simpa using hmask

/-- C3: when an ACK carries no subnet mask option, checkAndFixupAck supplies
a classful default as a function of yiaddr: below 128.0.0.0 mask 255.0.0.0,
below 192.0.0.0 mask 255.255.0.0, below 224.0.0.0 mask 255.255.255.0, and any
other address causes the ACK to be rejected. -/
theorem checkAndFixupAck_classful_mask (addr : Nat) (opts : DhcpRecvOptions)
    (hns : opts.have_subnet_mask = false) :
    (∀ opts', checkAndFixupAck addr opts = some opts' →
      ((addr < Ip4Addr_mk 128 0 0 0 → opts'.subnet_mask = Ip4Addr_mk 255 0 0 0) ∧
       (Ip4Addr_mk 128 0 0 0 ≤ addr → addr < Ip4Addr_mk 192 0 0 0 →
         opts'.subnet_mask = Ip4Addr_mk 255 255 0 0) ∧
       (Ip4Addr_mk 192 0 0 0 ≤ addr → addr < Ip4Addr_mk 224 0 0 0 →
         opts'.subnet_mask = Ip4Addr_mk 255 255 255 0))) ∧
    (Ip4Addr_mk 224 0 0 0 ≤ addr → checkAndFixupAck addr opts = none) := by
  have e128 : Ip4Addr_mk 128 0 0 0 = 2147483648 := rfl
  have e192 : Ip4Addr_mk 192 0 0 0 = 3221225472 := rfl
  have e224 : Ip4Addr_mk 224 0 0 0 = 3758096384 := rfl
  constructor
  · intro opts' h
    have hm := checkAndFixupAck_mask_eq addr opts opts' h
    rw [hns] at hm
    simp only [Bool.not_false, if_true] at hm
    refine ⟨?_, ?_, ?_⟩
    · intro hlt
      rw [if_pos hlt, Option.some_inj] at hm
      exact hm.symm
    · intro hge hlt
      rw [if_neg (by omega : ¬ (addr < Ip4Addr_mk 128 0 0 0)),
          if_pos hlt, Option.some_inj] at hm
      exact hm.symm
    · intro hge hlt
      rw [if_neg (by omega : ¬ (addr < Ip4Addr_mk 128 0 0 0)),
          if_neg (by omega : ¬ (addr < Ip4Addr_mk 192 0 0 0)),
          if_pos hlt, Option.some_inj] at hm
      exact hm.symm
  · intro hge
    have h128 : ¬ (addr < Ip4Addr_mk 128 0 0 0) := by omega
    have h192 : ¬ (addr < Ip4Addr_mk 192 0 0 0) := by omega
    have h224 : ¬ (addr < Ip4Addr_mk 224 0 0 0) := by omega
    simp only [checkAndFixupAck, hns, Bool.not_false, if_true,
      if_neg h128, if_neg h192, if_neg h224]
    split
    · rfl
    · split
      · rfl
      · rfl

/-- Witness for C3 at address 192.0.2.10 (between 192.0.0.0 and 224.0.0.0)
with the concrete mask-less ACK testAckOpts. -/
theorem checkAndFixupAck_classful_mask_witness :
    testAckFixed.subnet_mask = Ip4Addr_mk 255 255 255 0 :=
  (((checkAndFixupAck_classful_mask (Ip4Addr_mk 192 0 2 10) testAckOpts
      (by decide)).1 testAckFixed (by decide)).2.2) (by decide) (by decide)

/-- reset_rtx_timeout: sets m_rtx_timeout to BaseRtxTimeoutSeconds. -/
def reset_rtx_timeout (baseRtx : Nat) : Nat := baseRtx

/-- double_rtx_timeout: doubles m_rtx_timeout but to no more than
MaxRtxTimeoutSeconds. m_rtx_timeout is a uint8, so the doubling in the
untaken-overflow branch carries an explicit narrowing `% 256` (the C++ int
result of 2 * m_rtx_timeout is converted back to uint8 on assignment). -/
def double_rtx_timeout (maxRtx t : Nat) : Nat :=
  if t > maxRtx / 2 then maxRtx else (2 * t) % 256

example : double_rtx_timeout 64 3 = 6 := by decide
example : double_rtx_timeout 64 48 = 64 := by decide
example : double_rtx_timeout 64 64 = 64 := by decide

/-- C6: for every current retransmission timeout t with
BaseRtxTimeoutSeconds ≤ t ≤ MaxRtxTimeoutSeconds (and the static bounds on the
parameters), double_rtx_timeout computes min (2*t) MaxRtxTimeoutSeconds; the
result is ≥ t (monotone non-decreasing) and ≤ MaxRtxTimeoutSeconds, and the
schedule starts at reset_rtx_timeout = BaseRtxTimeoutSeconds. -/
theorem double_rtx_timeout_spec (baseRtx maxRtx t : Nat)
    (hbase : 1 ≤ baseRtx) (hbm : baseRtx ≤ maxRtx) (hmax : maxRtx ≤ 255)
    (ht1 : baseRtx ≤ t) (ht2 : t ≤ maxRtx) :
    double_rtx_timeout maxRtx t = min (2 * t) maxRtx ∧
    t ≤ double_rtx_timeout maxRtx t ∧
    double_rtx_timeout maxRtx t ≤ maxRtx ∧
    reset_rtx_timeout baseRtx = baseRtx := by
  have hdm := Nat.div_add_mod maxRtx 2
  have hmod2 : maxRtx % 2 < 2 := Nat.mod_lt _ (by omega)
  unfold double_rtx_timeout reset_rtx_timeout
  split
  · rename_i hgt
    omega
  · rename_i hle
    have h2t : 2 * t ≤ maxRtx := by omega
    rw [Nat.mod_eq_of_lt (by omega : 2 * t < 256)]
    omega

/-- Witness for C6 with BaseRtxTimeoutSeconds = 3, MaxRtxTimeoutSeconds = 64,
current timeout 48. -/
theorem double_rtx_timeout_spec_witness :
    double_rtx_timeout 64 48 = min (2 * 48) 64 ∧
    48 ≤ double_rtx_timeout 64 48 ∧
    double_rtx_timeout 64 48 ≤ 64 ∧
    reset_rtx_timeout 3 = 3 :=
  double_rtx_timeout_spec 3 64 48 (by decide) (by decide) (by decide)
    (by decide) (by decide)

/-- DhcpState: the DHCP client states. -/
inductive DhcpState where
  | LinkDown
  | Resetting
  | Rebooting
  | Selecting
  | Requesting
  | Checking
  | Bound
  | Renewing
  | Rebinding
  deriving DecidableEq, Repr

/-- LeaseInfo: information about the current lease (m_info). -/
structure LeaseInfo where
  ip_address : Nat
  dhcp_server_identifier : Nat
  dhcp_server_addr : Nat
  lease_time_s : Nat
  renewal_time_s : Nat
  rebinding_time_s : Nat
  subnet_mask : Nat
  server_mac : Nat
  have_router : Bool
  domain_name_servers_count : Nat
  router : Nat
  domain_name_servers : List Nat
  deriving DecidableEq, Repr

/-- The mutable state of IpDhcpClient. m_arp_observing models whether the
ARP observer subscription (m_arp_observer) is active. Times are monotonic
clock ticks. -/
structure DhcpClient where
  m_xid : Nat
  m_rtx_timeout : Nat
  m_state : DhcpState
  m_request_count : Nat
  m_lease_time_passed : Nat
  m_request_send_time : Nat
  m_request_send_time_passed : Nat
  m_info : LeaseInfo
  m_arp_observing : Bool
  deriving DecidableEq, Repr

/-- The static configuration (Params) plus the platform constants the client
uses: MaxTimerSeconds (derived from the timer working span) and TimeFreq
(ticks per second). -/
structure DhcpParams where
  XidReuseMax : Nat
  MaxRequests : Nat
  MaxRebootRequests : Nat
  BaseRtxTimeoutSeconds : Nat
  MaxRtxTimeoutSeconds : Nat
  ResetTimeoutSeconds : Nat
  MinRenewRtxTimeoutSeconds : Nat
  ArpResponseTimeoutSeconds : Nat
  NumArpQueries : Nat
  MaxTimerSeconds : Nat
  TimeFreq : Nat
  deriving DecidableEq, Repr

/-- IpDhcpClientEvent: events reported to the user handler. -/
inductive IpDhcpClientEvent where
  | LeaseObtained
  | LeaseRenewed
  | LeaseLost
  | LinkDown
  deriving DecidableEq, Repr

/-- The contents of a DHCPDECLINE message as assembled by send_decline. -/
structure DeclineMsg where
  dhcp_server_identifier : Nat
  requested_ip_address : Nat
  message : String
  deriving DecidableEq, Repr

/-- Observable effects of one handler invocation: which DHCP messages were
sent, whether an ARP query was sent, the relative seconds the one-shot timer
was armed for (none = not re-armed), whether interface configuration was
applied/cleared, and the event passed to the user handler (when one is set). -/
structure DhcpEffects where
  sentDiscover : Bool
  sentRequest : Bool
  sentDecline : Option DeclineMsg
  sentArpQuery : Bool
  timer_rel_sec : Option Nat
  configApplied : Bool
  configCleared : Bool
  event : Option IpDhcpClientEvent
  deriving DecidableEq, Repr

/-- No observable effects. -/
def noEffects : DhcpEffects :=
  { sentDiscover := false, sentRequest := false, sentDecline := none,
    sentArpQuery := false, timer_rel_sec := none,
    configApplied := false, configCleared := false, event := none }

/-- TicksToSec: convert ticks to seconds rounding down, saturating at the
maximum uint32 value. -/
def TicksToSec (freq ticks : Nat) : Nat := min (ticks / freq) (u32Mod - 1)

/-- SecToTicksNoAssert: convert seconds to ticks. -/
def SecToTicksNoAssert (freq seconds : Nat) : Nat := seconds * freq

/-- new_xid: the new XID is the monotonic time narrowed to uint32. -/
def new_xid_val (now : Nat) : Nat := now % u32Mod

/-- hasLease: true in the states Bound, Renewing, Rebinding. -/
def hasLease (c : DhcpClient) : Bool :=
  match c.m_state with
  | .Bound | .Renewing | .Rebinding => true
  | _ => false

/-- start_discovery_or_rebooting: generate an XID, reset the message counter
and either broadcast a discover (Selecting) or request the remembered address
(Rebooting); arm the retransmission timer at BaseRtxTimeoutSeconds. -/
def start_discovery_or_rebooting (p : DhcpParams) (c : DhcpClient) (now : Nat) :
    DhcpClient × DhcpEffects :=
  let c1 := { c with m_xid := new_xid_val now, m_request_count := 1 }
  if c.m_info.ip_address = 0 then
    ({ c1 with
       m_state := .Selecting, m_rtx_timeout := p.BaseRtxTimeoutSeconds },
     { noEffects with
       sentDiscover := true, timer_rel_sec := some p.BaseRtxTimeoutSeconds })
  else
    ({ c1 with
       m_state := .Rebooting, m_request_send_time := now,
       m_rtx_timeout := p.BaseRtxTimeoutSeconds },
     { noEffects with
       sentRequest := true, timer_rel_sec := some p.BaseRtxTimeoutSeconds })

/-- start_discovery: clear the remembered address (so Rebooting is not
entered) and delegate to start_discovery_or_rebooting. -/
def start_discovery (p : DhcpParams) (c : DhcpClient) (now : Nat) :
    DhcpClient × DhcpEffects :=
  start_discovery_or_rebooting p
    { c with m_info := { c.m_info with ip_address := 0 } } now

/-- handle_expired_lease: restart discovery; if a lease was held, also clear
the interface configuration and report LeaseLost (handle_dhcp_down). -/
def handle_expired_lease (p : DhcpParams) (c : DhcpClient) (now : Nat)
    (had_lease : Bool) : DhcpClient × DhcpEffects :=
  let r := start_discovery p c now
  if had_lease then
    (r.1, { r.2 with configCleared := true, event := some .LeaseLost })
  else r

/-- go_resetting: restart discovery after a failure, either immediately
(straight to Selecting) or via the Resetting state with a
ResetTimeoutSeconds delay; a held lease is torn down with LeaseLost. -/
def go_resetting (p : DhcpParams) (c : DhcpClient) (now : Nat)
    (discover_immediately : Bool) : DhcpClient × DhcpEffects :=
  let had_lease := hasLease c
  let r :=
    if discover_immediately then start_discovery p c now
    else ({ c with m_state := .Resetting },
          { noEffects with timer_rel_sec := some p.ResetTimeoutSeconds })
  if had_lease then
    (r.1, { r.2 with configCleared := true, event := some .LeaseLost })
  else r

/-- go_checking: enter Checking, subscribe the ARP observer, arm the timer
for ArpResponseTimeoutSeconds and send the first ARP query. -/
def go_checking (p : DhcpParams) (c : DhcpClient) : DhcpClient × DhcpEffects :=
  ({ c with m_state := .Checking, m_request_count := 1, m_arp_observing := true },
   { noEffects with
     sentArpQuery := true, timer_rel_sec := some p.ArpResponseTimeoutSeconds })

/-- go_bound: compute the lease seconds already passed since the request was
sent, detect an already-expired lease, otherwise enter Bound, arm the timer
toward the renewal time (limited to MaxTimerSeconds), apply the interface
configuration and report LeaseRenewed or LeaseObtained (handle_dhcp_up).
All quantities are uint32 values; the source checks expiry before using the
subtraction renewal_time_s - m_lease_time_passed, so Nat subtraction agrees. -/
def go_bound (p : DhcpParams) (c : DhcpClient) (now : Nat) :
    DhcpClient × DhcpEffects :=
  let had_lease := hasLease c
  let ltp := TicksToSec p.TimeFreq (now - c.m_request_send_time)
  if ltp ≥ c.m_info.lease_time_s then
    handle_expired_lease p { c with m_lease_time_passed := ltp } now had_lease
  else
    let timer_rel :=
      if ltp ≤ c.m_info.renewal_time_s then c.m_info.renewal_time_s - ltp else 0
    let timer_rel2 := min timer_rel p.MaxTimerSeconds
    ({ c with m_state := .Bound, m_lease_time_passed := ltp + timer_rel2 },
     { noEffects with
       timer_rel_sec := some timer_rel2, configApplied := true,
       event := some (if had_lease then .LeaseRenewed else .LeaseObtained) })

/-- handleTimerSelecting: retransmit the discover; the XID is reused until
m_request_count reaches XidReuseMax, at which point a fresh XID is generated
and the counter restarts at 1; the retransmission timeout doubles (capped).
m_request_count is a uint8, hence the narrowing on the increment. -/
def handleTimerSelecting (p : DhcpParams) (c : DhcpClient) (now : Nat) :
    DhcpClient × DhcpEffects :=
  let c1 :=
    if c.m_request_count ≥ p.XidReuseMax then
      { c with m_request_count := 1, m_xid := new_xid_val now }
    else
      { c with m_request_count := (c.m_request_count + 1) % 256 }
  let rtx := double_rtx_timeout p.MaxRtxTimeoutSeconds c1.m_rtx_timeout
  ({ c1 with m_rtx_timeout := rtx },
   { noEffects with sentDiscover := true, timer_rel_sec := some rtx })

/-- handleTimerBoundRenewingRebinding: account the seconds passed since the
scheduled expiry, detect lease timeout, move Bound→Renewing→Rebinding when
the renewal/rebinding times have been reached, compute the next timer
sub-interval (toward renewal in Bound; the earlier of the next state change
and the retransmission time max(MinRenewRtxTimeoutSeconds, remaining/2) in
Renewing/Rebinding, where a request is retransmitted), limit it to
MaxTimerSeconds and account it into m_lease_time_passed. The timer is armed
at the previous set time plus the seconds accounted (the returned
timer_rel_sec), so no drift accumulates. The uint32 subtractions involved
are guarded by the expiry test and the assertion
m_lease_time_passed ≤ lease_time_s, under which Nat subtraction agrees. -/
def handleTimerBoundRenewingRebinding (p : DhcpParams) (c : DhcpClient)
    (now set_time : Nat) : DhcpClient × DhcpEffects :=
  let passed_sec := TicksToSec p.TimeFreq (now - set_time)
  if passed_sec ≥ c.m_info.lease_time_s - c.m_lease_time_passed then
    handle_expired_lease p c now true
  else
    let ltp1 := c.m_lease_time_passed + passed_sec
    let stx : DhcpState × Nat :=
      if c.m_state ≠ .Rebinding ∧ ltp1 ≥ c.m_info.rebinding_time_s then
        (.Rebinding, new_xid_val now)
      else if c.m_state = .Bound ∧ ltp1 ≥ c.m_info.renewal_time_s then
        (.Renewing, new_xid_val now)
      else (c.m_state, c.m_xid)
    let st1 := stx.1
    if st1 = .Bound then
      let timer_rel := c.m_info.renewal_time_s - ltp1
      let timer_rel2 := min timer_rel p.MaxTimerSeconds
      ({ c with
         m_state := st1, m_xid := stx.2, m_lease_time_passed := ltp1 + timer_rel2 },
       { noEffects with timer_rel_sec := some timer_rel2 })
    else
      let next_state_sec :=
        if st1 = .Renewing then c.m_info.rebinding_time_s else c.m_info.lease_time_s
      let next_state_rel_sec := next_state_sec - ltp1
      let rtx_rel_sec :=
        max p.MinRenewRtxTimeoutSeconds (next_state_rel_sec / 2)
      let timer_rel := min next_state_rel_sec rtx_rel_sec
      let timer_rel2 := min timer_rel p.MaxTimerSeconds
      ({ c with
         m_state := st1, m_xid := stx.2, m_lease_time_passed := ltp1 + timer_rel2,
         m_request_send_time := now, m_request_send_time_passed := ltp1 },
       { noEffects with sentRequest := true, timer_rel_sec := some timer_rel2 })

/-- arpInfoReceived: in Checking (asserted by the source), an ARP message
from the address being checked triggers a DECLINE carrying the stored server
identifier, the candidate address and the text "ArpResponse", unsubscribes
the ARP observer and goes to Resetting; other addresses cause no action. -/
def arpInfoReceived (p : DhcpParams) (c : DhcpClient) (now ip_addr : Nat) :
    DhcpClient × DhcpEffects :=
  if ip_addr = c.m_info.ip_address then
    let decline : DeclineMsg :=
      { dhcp_server_identifier := c.m_info.dhcp_server_identifier,
        requested_ip_address := c.m_info.ip_address,
        message := "ArpResponse" }
    let r := go_resetting p { c with m_arp_observing := false } now false
    (r.1, { r.2 with sentDecline := some decline })
  else (c, noEffects)

/-- The decoded wire fields of a received DHCP message that
processReceivedDhcpMessage inspects. len_ok stands for the length and
contiguity checks on the fixed header; parse_ok for Options::parseOptions
succeeding. chaddr is the hardware address read from the header, as a
number; yiaddr is the Your IP Address field. -/
structure DhcpMsg where
  len_ok : Bool
  op : Nat
  htype : Nat
  hlen : Nat
  xid : Nat
  chaddr : Nat
  yiaddr : Nat
  magic : Nat
  parse_ok : Bool
  opts : DhcpRecvOptions
  deriving DecidableEq, Repr

/-- DhcpOp::BootReply. -/
def DhcpOpBootReply : Nat := 2

/-- DhcpHwAddrType::Ethernet. -/
def DhcpHwAddrTypeEthernet : Nat := 1

/-- MacAddr::Size (the expected hlen). -/
def MacAddrSize : Nat := 6

/-- The DHCP magic cookie 0x63825363. -/
def DhcpMagicValue : Nat := 0x63825363

/-- processReceivedDhcpMessage: full validation pipeline and dispatch of a
received DHCP message. mac is the interface MAC address, server_mac the
source MAC of the received frame, src_addr the source IP of the datagram. -/
def processReceivedDhcpMessage (p : DhcpParams) (mac server_mac : Nat)
    (c : DhcpClient) (now src_addr : Nat) (msg : DhcpMsg) :
    DhcpClient × DhcpEffects :=
  match c.m_state with
  | .LinkDown | .Resetting | .Checking | .Bound => (c, noEffects)
  | _ =>
    if !msg.len_ok then (c, noEffects)
    else if !(msg.op == DhcpOpBootReply && msg.htype == DhcpHwAddrTypeEthernet &&
              msg.hlen == MacAddrSize && msg.xid == c.m_xid &&
              msg.chaddr == mac) then (c, noEffects)
    else if msg.magic != DhcpMagicValue then (c, noEffects)
    else if !msg.parse_ok then (c, noEffects)
    else if !(msg.opts.have_dhcp_message_type &&
              (msg.opts.dhcp_message_type == MsgOffer ||
               msg.opts.dhcp_message_type == MsgAck ||
               msg.opts.dhcp_message_type == MsgNak)) then (c, noEffects)
    else if !msg.opts.have_dhcp_server_identifier then (c, noEffects)
    else if msg.opts.dhcp_message_type == MsgNak then
      match c.m_state with
      | .Requesting =>
        if msg.opts.dhcp_server_identifier != c.m_info.dhcp_server_identifier then
          (c, noEffects)
        else go_resetting p c now false
      | .Renewing | .Rebinding | .Rebooting => go_resetting p c now true
      | _ => (c, noEffects)
    else
      let ip_address := msg.yiaddr
      if msg.opts.dhcp_message_type == MsgOffer && c.m_state = .Selecting then
        if !checkOffer ip_address then (c, noEffects)
        else
          ({ c with
             m_info := { c.m_info with
               ip_address := ip_address,
               dhcp_server_identifier := msg.opts.dhcp_server_identifier },
             m_state := .Requesting, m_request_send_time := now,
             m_request_count := 1, m_rtx_timeout := p.BaseRtxTimeoutSeconds },
           { noEffects with
             sentRequest := true, timer_rel_sec := some p.BaseRtxTimeoutSeconds })
      else if msg.opts.dhcp_message_type == MsgAck &&
              (c.m_state = .Requesting ∨ c.m_state = .Renewing ∨
               c.m_state = .Rebinding ∨ c.m_state = .Rebooting) then
        match checkAndFixupAck ip_address msg.opts with
        | none => (c, noEffects)
        | some opts2 =>
          if c.m_state = .Requesting ∧
             (ip_address ≠ c.m_info.ip_address ∨
              opts2.dhcp_server_identifier ≠ c.m_info.dhcp_server_identifier) then
            (c, noEffects)
          else if c.m_state ≠ .Requesting ∧ c.m_state ≠ .Rebooting ∧
                  c.m_lease_time_passed - c.m_request_send_time_passed >
                    p.MaxTimerSeconds then
            (c, noEffects)
          else
            let info2 : LeaseInfo :=
              { ip_address := ip_address,
                dhcp_server_identifier := opts2.dhcp_server_identifier,
                dhcp_server_addr := src_addr,
                lease_time_s := opts2.ip_address_lease_time,
                renewal_time_s := opts2.renewal_time,
                rebinding_time_s := opts2.rebinding_time,
                subnet_mask := opts2.subnet_mask,
                server_mac := server_mac,
                have_router := opts2.have_router,
                domain_name_servers_count := opts2.have_dns_servers,
                router := if opts2.have_router then opts2.router else 0,
                domain_name_servers := opts2.dns_servers.take opts2.have_dns_servers }
            let c2 := { c with m_info := info2 }
            if c.m_state = .Requesting then go_checking p c2
            else go_bound p c2 now
      else (c, noEffects)

/-- Concrete static configuration used in witnesses (the documented default
option values, MaxTimerSeconds = 4000, one tick per second). -/
def testParams : DhcpParams :=
  { XidReuseMax := 3, MaxRequests := 3, MaxRebootRequests := 2,
    BaseRtxTimeoutSeconds := 3, MaxRtxTimeoutSeconds := 64,
    ResetTimeoutSeconds := 3, MinRenewRtxTimeoutSeconds := 60,
    ArpResponseTimeoutSeconds := 1, NumArpQueries := 2,
    MaxTimerSeconds := 4000, TimeFreq := 1 }

/-- Concrete lease used in witnesses: 192.0.2.10/24 from server 192.0.2.1,
lease 3600 s, renewal 1800 s, rebinding 3150 s. -/
def testLease : LeaseInfo :=
  { ip_address := Ip4Addr_mk 192 0 2 10,
    dhcp_server_identifier := Ip4Addr_mk 192 0 2 1,
    dhcp_server_addr := Ip4Addr_mk 192 0 2 1,
    lease_time_s := 3600, renewal_time_s := 1800, rebinding_time_s := 3150,
    subnet_mask := Ip4Addr_mk 255 255 255 0,
    server_mac := 2, have_router := true,
    domain_name_servers_count := 1, router := Ip4Addr_mk 192 0 2 1,
    domain_name_servers := [Ip4Addr_mk 192 0 2 2] }

/-- Concrete client in Renewing, 1800 lease seconds passed. -/
def testClientRenewing : DhcpClient :=
  { m_xid := 42, m_rtx_timeout := 3, m_state := .Renewing,
    m_request_count := 1, m_lease_time_passed := 1800,
    m_request_send_time := 1800, m_request_send_time_passed := 1800,
    m_info := testLease, m_arp_observing := false }

/-- Concrete client in Selecting (first discover sent). -/
def testClientSelecting : DhcpClient :=
  { testClientRenewing with m_state := .Selecting }

/-- Concrete client in Requesting. -/
def testClientRequesting : DhcpClient :=
  { testClientRenewing with m_state := .Requesting }

/-- Concrete client in Checking with an active ARP observer. -/
def testClientChecking : DhcpClient :=
  { testClientRenewing with m_state := .Checking, m_arp_observing := true }

/-- Concrete client in Rebooting whose first request went out at tick 0. -/
def testClientRebooting : DhcpClient :=
  { testClientRenewing with m_state := .Rebooting, m_request_send_time := 0 }

/-- C9: in Selecting, a timer fire retransmits the discover with the XID
unchanged while the retransmit counter is below XidReuseMax (counter
incremented); once the counter has reached XidReuseMax, a new XID is
generated from the monotonic clock and the counter restarts at 1, so at most
XidReuseMax discovers are sent under one XID. -/
theorem selecting_xid_reuse (p : DhcpParams) (c : DhcpClient) (now : Nat)
    (hmax : p.XidReuseMax ≤ 5) (hcnt : c.m_request_count ≤ p.XidReuseMax) :
    ((c.m_request_count < p.XidReuseMax →
       (handleTimerSelecting p c now).1.m_xid = c.m_xid ∧
       (handleTimerSelecting p c now).1.m_request_count = c.m_request_count + 1) ∧
     (c.m_request_count ≥ p.XidReuseMax →
       (handleTimerSelecting p c now).1.m_xid = new_xid_val now ∧
       (handleTimerSelecting p c now).1.m_request_count = 1)) ∧
    (handleTimerSelecting p c now).2.sentDiscover = true := by
  by_cases hge : c.m_request_count ≥ p.XidReuseMax
  · refine ⟨⟨fun hlt => absurd hge (by omega), fun _ => ?_⟩, ?_⟩
    · simp [handleTimerSelecting, if_pos hge]
    · simp [handleTimerSelecting]
  · refine ⟨⟨fun _ => ?_, fun hge2 => absurd hge2 hge⟩, ?_⟩
    · have hlt : c.m_request_count + 1 < 256 := by omega
      simp [handleTimerSelecting, if_neg hge, Nat.mod_eq_of_lt hlt]
    · simp [handleTimerSelecting]

/-- Witness for C9: Selecting client with counter 1 < XidReuseMax = 3 at
tick 7. -/
theorem selecting_xid_reuse_witness :
    ((testClientSelecting.m_request_count < testParams.XidReuseMax →
       (handleTimerSelecting testParams testClientSelecting 7).1.m_xid =
         testClientSelecting.m_xid ∧
       (handleTimerSelecting testParams testClientSelecting 7).1.m_request_count =
         testClientSelecting.m_request_count + 1) ∧
     (testClientSelecting.m_request_count ≥ testParams.XidReuseMax →
       (handleTimerSelecting testParams testClientSelecting 7).1.m_xid =
         new_xid_val 7 ∧
       (handleTimerSelecting testParams testClientSelecting 7).1.m_request_count = 1)) ∧
    (handleTimerSelecting testParams testClientSelecting 7).2.sentDiscover = true :=
  selecting_xid_reuse testParams testClientSelecting 7 (by decide) (by decide)

/-- C8: in Checking, an ARP reply whose sender IP equals the candidate
address triggers exactly one DECLINE carrying the stored server identifier,
the candidate address as requested IP and the message text "ArpResponse";
the ARP observer is unsubscribed and the state becomes Resetting with the
timer armed for ResetTimeoutSeconds. ARP replies for any other IP cause no
action. -/
theorem arp_conflict_decline (p : DhcpParams) (c : DhcpClient)
    (now ip_addr : Nat) (hst : c.m_state = DhcpState.Checking) :
    (ip_addr = c.m_info.ip_address →
      (arpInfoReceived p c now ip_addr).2.sentDecline =
        some { dhcp_server_identifier := c.m_info.dhcp_server_identifier,
               requested_ip_address := c.m_info.ip_address,
               message := "ArpResponse" } ∧
      (arpInfoReceived p c now ip_addr).1.m_arp_observing = false ∧
      (arpInfoReceived p c now ip_addr).1.m_state = DhcpState.Resetting ∧
      (arpInfoReceived p c now ip_addr).2.timer_rel_sec =
        some p.ResetTimeoutSeconds ∧
      (arpInfoReceived p c now ip_addr).2.event = none) ∧
    (ip_addr ≠ c.m_info.ip_address →
      arpInfoReceived p c now ip_addr = (c, noEffects)) := by
  constructor
  · intro h
    simp [arpInfoReceived, h, go_resetting, hasLease, hst, noEffects]
  · intro h
    simp [arpInfoReceived, h]

/-- Witness for C8: Checking client, conflicting ARP reply from the
candidate 192.0.2.10 at tick 5. -/
theorem arp_conflict_decline_witness :
    (arpInfoReceived testParams testClientChecking 5 (Ip4Addr_mk 192 0 2 10)).2.sentDecline =
      some { dhcp_server_identifier := testClientChecking.m_info.dhcp_server_identifier,
             requested_ip_address := testClientChecking.m_info.ip_address,
             message := "ArpResponse" } ∧
    (arpInfoReceived testParams testClientChecking 5 (Ip4Addr_mk 192 0 2 10)).1.m_arp_observing = false ∧
    (arpInfoReceived testParams testClientChecking 5 (Ip4Addr_mk 192 0 2 10)).1.m_state = DhcpState.Resetting ∧
    (arpInfoReceived testParams testClientChecking 5 (Ip4Addr_mk 192 0 2 10)).2.timer_rel_sec =
      some testParams.ResetTimeoutSeconds ∧
    (arpInfoReceived testParams testClientChecking 5 (Ip4Addr_mk 192 0 2 10)).2.event = none :=
  (arp_conflict_decline testParams testClientChecking 5 (Ip4Addr_mk 192 0 2 10)
    (by decide)).1 (by decide)

/-- Seconds that have passed since the scheduled timer expiry, as the
Bound/Renewing/Rebinding timer handler computes them. -/
def brr_passed (p : DhcpParams) (now set_time : Nat) : Nat :=
  TicksToSec p.TimeFreq (now - set_time)

/-- m_lease_time_passed after the handler accounts the passed seconds. -/
def brr_ltp1 (p : DhcpParams) (c : DhcpClient) (now set_time : Nat) : Nat :=
  c.m_lease_time_passed + brr_passed p now set_time

/-- The absolute lease second of the next state change as seen by the
handler: the rebinding time while the client stays in Renewing, and the
lease expiry otherwise (that is, once in Rebinding). -/
def brr_next_state_sec (c : DhcpClient) (ltp1 : Nat) : Nat :=
  if c.m_state = DhcpState.Renewing ∧ ltp1 < c.m_info.rebinding_time_s
  then c.m_info.rebinding_time_s else c.m_info.lease_time_s

/-- Seconds until the next state change (time_to_next_state). -/
def brr_next_rel (p : DhcpParams) (c : DhcpClient) (now set_time : Nat) : Nat :=
  brr_next_state_sec c (brr_ltp1 p c now set_time) - brr_ltp1 p c now set_time

/-- The retransmission delay max(MinRenewRtxTimeoutSeconds,
time_to_next_state / 2). -/
def brr_rtx_rel (p : DhcpParams) (c : DhcpClient) (now set_time : Nat) : Nat :=
  max p.MinRenewRtxTimeoutSeconds (brr_next_rel p c now set_time / 2)

/-- C2: in Renewing and Rebinding, when the timer fires (and the lease has
not expired) a request is retransmitted and, whenever the retransmission
delay max(MinRenewRtxTimeoutSeconds, time_to_next_state / 2) does not reach
the next state change nor MaxTimerSeconds, the timer is armed for exactly
that delay; the "next state" is the transition to Rebinding while the client
remains in Renewing and the lease expiry once it is in Rebinding. -/
theorem renew_rebind_rtx_schedule (p : DhcpParams) (c : DhcpClient)
    (now set_time : Nat)
    (hst : c.m_state = DhcpState.Renewing ∨ c.m_state = DhcpState.Rebinding)
    (hnotexp : brr_passed p now set_time <
      c.m_info.lease_time_s - c.m_lease_time_passed)
    (h1 : brr_rtx_rel p c now set_time ≤ brr_next_rel p c now set_time)
    (h2 : brr_rtx_rel p c now set_time ≤ p.MaxTimerSeconds) :
    ((handleTimerBoundRenewingRebinding p c now set_time).1.m_state =
       DhcpState.Renewing →
      brr_next_state_sec c (brr_ltp1 p c now set_time) =
        c.m_info.rebinding_time_s) ∧
    ((handleTimerBoundRenewingRebinding p c now set_time).1.m_state =
       DhcpState.Rebinding →
      brr_next_state_sec c (brr_ltp1 p c now set_time) =
        c.m_info.lease_time_s) ∧
    (handleTimerBoundRenewingRebinding p c now set_time).2.sentRequest = true ∧
    (handleTimerBoundRenewingRebinding p c now set_time).2.timer_rel_sec =
      some (brr_rtx_rel p c now set_time) := by
  have hne : ¬ (TicksToSec p.TimeFreq (now - set_time) ≥
      c.m_info.lease_time_s - c.m_lease_time_passed) := by
    simp only [brr_passed] at hnotexp
    omega
  have hst2 : c.m_state ≠ DhcpState.Bound := by
    rcases hst with h | h <;> simp [h]
  simp only [handleTimerBoundRenewingRebinding]
  rw [if_neg hne]
  split
  · rename_i hcond
    have hrebge := hcond.2
    have hnss : brr_next_state_sec c
        (c.m_lease_time_passed + TicksToSec p.TimeFreq (now - set_time)) =
        c.m_info.lease_time_s := by
      simp only [brr_next_state_sec]
      rw [if_neg]
      exact fun hco => absurd hco.2 (by omega)
    simp only [brr_rtx_rel, brr_next_rel, brr_ltp1, brr_passed, hnss] at h1 h2 ⊢
    simp [noEffects]
    omega
  · split
    · rename_i hncond hcond2
      exact absurd hcond2.1 hst2
    · rename_i hncond hncond2
      rcases hst with h | h
      · have hlt : c.m_lease_time_passed + TicksToSec p.TimeFreq (now - set_time) <
            c.m_info.rebinding_time_s := by
          by_contra hq
          exact hncond ⟨by rw [h]; simp, by omega⟩
        have hnss : brr_next_state_sec c
            (c.m_lease_time_passed + TicksToSec p.TimeFreq (now - set_time)) =
            c.m_info.rebinding_time_s := by
          simp only [brr_next_state_sec]
          rw [if_pos ⟨h, hlt⟩]
        simp only [brr_rtx_rel, brr_next_rel, brr_ltp1, brr_passed, hnss] at h1 h2 ⊢
        simp [noEffects, h]
        omega
      · have hnss : brr_next_state_sec c
            (c.m_lease_time_passed + TicksToSec p.TimeFreq (now - set_time)) =
            c.m_info.lease_time_s := by
          simp only [brr_next_state_sec]
          rw [if_neg]
          intro hco
          rw [h] at hco
          exact absurd hco.1 (by simp)
        simp only [brr_rtx_rel, brr_next_rel, brr_ltp1, brr_passed, hnss] at h1 h2 ⊢
        simp [noEffects, h]
        omega

/-- Witness for C2: Renewing client with 1800 lease seconds passed, timer
fired 10 s after its set time; the retransmission delay is
max(60, (3150 - 1810) / 2) = 670 and governs the timer. -/
theorem renew_rebind_rtx_schedule_witness :
    ((handleTimerBoundRenewingRebinding testParams testClientRenewing 1810 1800).1.m_state =
       DhcpState.Renewing →
      brr_next_state_sec testClientRenewing
        (brr_ltp1 testParams testClientRenewing 1810 1800) =
        testClientRenewing.m_info.rebinding_time_s) ∧
    ((handleTimerBoundRenewingRebinding testParams testClientRenewing 1810 1800).1.m_state =
       DhcpState.Rebinding →
      brr_next_state_sec testClientRenewing
        (brr_ltp1 testParams testClientRenewing 1810 1800) =
        testClientRenewing.m_info.lease_time_s) ∧
    (handleTimerBoundRenewingRebinding testParams testClientRenewing 1810 1800).2.sentRequest = true ∧
    (handleTimerBoundRenewingRebinding testParams testClientRenewing 1810 1800).2.timer_rel_sec =
      some (brr_rtx_rel testParams testClientRenewing 1810 1800) :=
  renew_rebind_rtx_schedule testParams testClientRenewing 1810 1800
    (Or.inl (by decide)) (by decide) (by decide) (by decide)

/-- C5: m_lease_time_passed never exceeds lease_time_s while a lease exists:
given the assertion at the top of the Bound/Renewing/Rebinding timer handler
(m_lease_time_passed ≤ lease_time_s) and the post-fix-up invariant
renewal ≤ rebinding ≤ lease, both the timer handler (when it does not detect
lease expiry, which exits the lease states) and go_bound leave
m_lease_time_passed ≤ lease_time_s whenever they leave the client in a lease
state, so the assertion is preserved and established. -/
theorem lease_time_passed_invariant (p : DhcpParams) (c : DhcpClient)
    (now set_time : Nat)
    (hltp : c.m_lease_time_passed ≤ c.m_info.lease_time_s)
    (hren : c.m_info.renewal_time_s ≤ c.m_info.rebinding_time_s)
    (hreb : c.m_info.rebinding_time_s ≤ c.m_info.lease_time_s) :
    (hasLease (handleTimerBoundRenewingRebinding p c now set_time).1 = true →
      (handleTimerBoundRenewingRebinding p c now set_time).1.m_lease_time_passed ≤
      (handleTimerBoundRenewingRebinding p c now set_time).1.m_info.lease_time_s) ∧
    (hasLease (go_bound p c now).1 = true →
      (go_bound p c now).1.m_lease_time_passed ≤
      (go_bound p c now).1.m_info.lease_time_s) := by
  constructor
  · simp only [handleTimerBoundRenewingRebinding]
    split
    · rename_i hexp
      intro hl
      exfalso
      revert hl
      simp [handle_expired_lease, start_discovery, start_discovery_or_rebooting,
        hasLease]
    · rename_i hnexp
      split
      · rename_i hcond
        intro _
        dsimp only
        rw [if_neg (by simp : ¬ (DhcpState.Rebinding = DhcpState.Bound))]
        dsimp only
        rw [if_neg (by simp : ¬ (DhcpState.Rebinding = DhcpState.Renewing))]
        omega
      · split
        · rename_i hncond hcond2
          intro _
          dsimp only
          rw [if_neg (by simp : ¬ (DhcpState.Renewing = DhcpState.Bound))]
          dsimp only
          rw [if_pos (rfl : DhcpState.Renewing = DhcpState.Renewing)]
          have hlt : c.m_lease_time_passed + TicksToSec p.TimeFreq (now - set_time) <
              c.m_info.rebinding_time_s := by
            by_contra hq
            exact hncond ⟨by rw [hcond2.1]; simp, by omega⟩
          omega
        · rename_i hncond hncond2
          intro _
          dsimp only
          by_cases hb : c.m_state = DhcpState.Bound
          · rw [if_pos hb]
            dsimp only
            have hltren : c.m_lease_time_passed +
                TicksToSec p.TimeFreq (now - set_time) <
                c.m_info.renewal_time_s := by
              by_contra hq
              exact hncond2 ⟨hb, by omega⟩
            omega
          · rw [if_neg hb]
            dsimp only
            by_cases hr : c.m_state = DhcpState.Renewing
            · rw [if_pos hr]
              have hlt : c.m_lease_time_passed +
                  TicksToSec p.TimeFreq (now - set_time) <
                  c.m_info.rebinding_time_s := by
                by_contra hq
                exact hncond ⟨by rw [hr]; simp, by omega⟩
              omega
            · rw [if_neg hr]
              omega
  · simp only [go_bound]
    split
    · rename_i hexp
      intro hl
      exfalso
      revert hl
      simp only [handle_expired_lease, start_discovery,
        start_discovery_or_rebooting]
      split
      · simp [hasLease]
      · simp [hasLease]
    · rename_i hnexp
      intro _
      dsimp only
      split
      · omega
      · omega

/-- Witness for C5 at the concrete Renewing client. -/
theorem lease_time_passed_invariant_witness :
    (hasLease (handleTimerBoundRenewingRebinding testParams testClientRenewing 1810 1800).1 = true →
      (handleTimerBoundRenewingRebinding testParams testClientRenewing 1810 1800).1.m_lease_time_passed ≤
      (handleTimerBoundRenewingRebinding testParams testClientRenewing 1810 1800).1.m_info.lease_time_s) ∧
    (hasLease (go_bound testParams testClientRenewing 1810).1 = true →
      (go_bound testParams testClientRenewing 1810).1.m_lease_time_passed ≤
      (go_bound testParams testClientRenewing 1810).1.m_info.lease_time_s) :=
  lease_time_passed_invariant testParams testClientRenewing 1810 1800
    (by decide) (by decide) (by decide)

/-- C7: a received DHCP message whose op, htype, hlen, XID, chaddr or magic
cookie is wrong is dropped before any state variable is modified: the client
is returned unchanged and nothing is sent, armed or reported. -/
theorem bad_header_no_state_change (p : DhcpParams) (mac server_mac : Nat)
    (c : DhcpClient) (now src_addr : Nat) (msg : DhcpMsg)
    (hbad : msg.op ≠ DhcpOpBootReply ∨ msg.htype ≠ DhcpHwAddrTypeEthernet ∨
            msg.hlen ≠ MacAddrSize ∨ msg.xid ≠ c.m_xid ∨ msg.chaddr ≠ mac ∨
            msg.magic ≠ DhcpMagicValue) :
    processReceivedDhcpMessage p mac server_mac c now src_addr msg =
      (c, noEffects) := by
  unfold processReceivedDhcpMessage
  split
  · rfl
  · rfl
  · rfl
  · rfl
  · by_cases hlen : msg.len_ok = true
    · by_cases hsane : (msg.op == DhcpOpBootReply &&
          msg.htype == DhcpHwAddrTypeEthernet && msg.hlen == MacAddrSize &&
          msg.xid == c.m_xid && msg.chaddr == mac) = true
      · have hsane2 := hsane
        simp only [Bool.and_eq_true, beq_iff_eq] at hsane2
        obtain ⟨⟨⟨⟨h1, h2⟩, h3⟩, h4⟩, h5⟩ := hsane2
        have hmg : msg.magic ≠ DhcpMagicValue := by
          rcases hbad with h | h | h | h | h | h
          · exact absurd h1 h
          · exact absurd h2 h
          · exact absurd h3 h
          · exact absurd h4 h
          · exact absurd h5 h
          · exact h
        have hbne : (msg.magic != DhcpMagicValue) = true := by
          simp [bne_iff_ne]
          exact hmg
        simp [hlen, hsane, hbne]
      · simp [hlen, hsane]
    · simp at hlen
      simp [hlen]

/-- A well-formed NAK from server 192.0.2.1 for a client with XID 42 and
MAC 9 (as a number). -/
def testMsgNak : DhcpMsg :=
  { len_ok := true, op := DhcpOpBootReply, htype := DhcpHwAddrTypeEthernet,
    hlen := MacAddrSize, xid := 42, chaddr := 9, yiaddr := 0,
    magic := DhcpMagicValue, parse_ok := true,
    opts := { testAckOpts with dhcp_message_type := MsgNak } }

/-- A well-formed ACK carrying yiaddr 192.0.2.10 and testAckOpts. -/
def testMsgAck : DhcpMsg :=
  { testMsgNak with yiaddr := Ip4Addr_mk 192 0 2 10, opts := testAckOpts }

/-- testMsgNak with a wrong (stale) XID. -/
def testMsgBadXid : DhcpMsg := { testMsgNak with xid := 43 }

/-- Witness for C7: the NAK with wrong XID leaves the Selecting client
untouched. -/
theorem bad_header_no_state_change_witness :
    processReceivedDhcpMessage testParams 9 2 testClientSelecting 0 0 testMsgBadXid =
      (testClientSelecting, noEffects) :=
  bad_header_no_state_change testParams 9 2 testClientSelecting 0 0 testMsgBadXid
    (Or.inr (Or.inr (Or.inr (Or.inl (by decide)))))

/-- C4: a NAK changes state only in Requesting, Renewing, Rebinding or
Rebooting; in Requesting it is acted on only when its server identifier
equals the stored one, transitioning to Resetting with the timer armed for
ResetTimeoutSeconds (no immediate discover); in the other three states it
restarts discovery immediately (state Selecting, discover sent, timer at
BaseRtxTimeoutSeconds) without the Resetting delay. -/
theorem nak_handling (p : DhcpParams) (mac server_mac : Nat) (c : DhcpClient)
    (now src_addr : Nat) (msg : DhcpMsg)
    (hlen : msg.len_ok = true) (hop : msg.op = DhcpOpBootReply)
    (hht : msg.htype = DhcpHwAddrTypeEthernet) (hhl : msg.hlen = MacAddrSize)
    (hxid : msg.xid = c.m_xid) (hch : msg.chaddr = mac)
    (hmg : msg.magic = DhcpMagicValue) (hpo : msg.parse_ok = true)
    (hhmt : msg.opts.have_dhcp_message_type = true)
    (hmt : msg.opts.dhcp_message_type = MsgNak)
    (hhsi : msg.opts.have_dhcp_server_identifier = true) :
    ((c.m_state = DhcpState.LinkDown ∨ c.m_state = DhcpState.Resetting ∨
      c.m_state = DhcpState.Checking ∨ c.m_state = DhcpState.Bound ∨
      c.m_state = DhcpState.Selecting) →
      processReceivedDhcpMessage p mac server_mac c now src_addr msg =
        (c, noEffects)) ∧
    (c.m_state = DhcpState.Requesting →
      (msg.opts.dhcp_server_identifier ≠ c.m_info.dhcp_server_identifier →
        processReceivedDhcpMessage p mac server_mac c now src_addr msg =
          (c, noEffects)) ∧
      (msg.opts.dhcp_server_identifier = c.m_info.dhcp_server_identifier →
        (processReceivedDhcpMessage p mac server_mac c now src_addr msg).1.m_state =
          DhcpState.Resetting ∧
        (processReceivedDhcpMessage p mac server_mac c now src_addr msg).2.timer_rel_sec =
          some p.ResetTimeoutSeconds ∧
        (processReceivedDhcpMessage p mac server_mac c now src_addr msg).2.sentDiscover =
          false)) ∧
    ((c.m_state = DhcpState.Renewing ∨ c.m_state = DhcpState.Rebinding ∨
      c.m_state = DhcpState.Rebooting) →
      (processReceivedDhcpMessage p mac server_mac c now src_addr msg).1.m_state =
        DhcpState.Selecting ∧
      (processReceivedDhcpMessage p mac server_mac c now src_addr msg).2.sentDiscover =
        true ∧
      (processReceivedDhcpMessage p mac server_mac c now src_addr msg).2.timer_rel_sec =
        some p.BaseRtxTimeoutSeconds) := by
  refine ⟨?_, ?_, ?_⟩
  · intro hs
    rcases hs with h | h | h | h | h <;>
      simp [processReceivedDhcpMessage, h, hlen, hop, hht, hhl, hxid, hch, hmg,
        hpo, hhmt, hmt, hhsi, MsgOffer, MsgAck, MsgNak, DhcpOpBootReply,
        DhcpHwAddrTypeEthernet, MacAddrSize, DhcpMagicValue]
  · intro h
    constructor
    · intro hne
      simp [processReceivedDhcpMessage, h, hlen, hop, hht, hhl, hxid, hch, hmg,
        hpo, hhmt, hmt, hhsi, MsgOffer, MsgAck, MsgNak, bne_iff_ne, hne]
    · intro heq
      simp [processReceivedDhcpMessage, h, hlen, hop, hht, hhl, hxid, hch, hmg,
        hpo, hhmt, hmt, hhsi, MsgOffer, MsgAck, MsgNak, heq, go_resetting,
        hasLease, noEffects]
  · intro hs
    rcases hs with h | h | h <;>
      simp [processReceivedDhcpMessage, h, hlen, hop, hht, hhl, hxid, hch, hmg,
        hpo, hhmt, hmt, hhsi, MsgOffer, MsgAck, MsgNak, go_resetting,
        start_discovery, start_discovery_or_rebooting, hasLease, noEffects]

/-- Witness for C4: Requesting client, NAK with the matching server
identifier 192.0.2.1 goes to Resetting with the reset delay and no
immediate discover. -/
theorem nak_handling_witness :
    (processReceivedDhcpMessage testParams 9 2 testClientRequesting 0 0 testMsgNak).1.m_state =
      DhcpState.Resetting ∧
    (processReceivedDhcpMessage testParams 9 2 testClientRequesting 0 0 testMsgNak).2.timer_rel_sec =
      some testParams.ResetTimeoutSeconds ∧
    (processReceivedDhcpMessage testParams 9 2 testClientRequesting 0 0 testMsgNak).2.sentDiscover =
      false :=
  ((nak_handling testParams 9 2 testClientRequesting 0 0 testMsgNak
    (by decide) (by decide) (by decide) (by decide) (by decide) (by decide)
    (by decide) (by decide) (by decide) (by decide) (by decide)).2.1
    (by decide)).2 (by decide)

/-- C10: a valid, accepted ACK received in Rebooting (with the lease not yet
expired) moves the client directly to Bound: no ARP query is sent, the ARP
observer stays as it was (the duplicate-address check runs only on the
Requesting path), and the reported event is LeaseObtained, not
LeaseRenewed. -/
theorem rebooting_ack_to_bound (p : DhcpParams) (mac server_mac : Nat)
    (c : DhcpClient) (now src_addr : Nat) (msg : DhcpMsg)
    (opts2 : DhcpRecvOptions)
    (hst : c.m_state = DhcpState.Rebooting)
    (hlen : msg.len_ok = true) (hop : msg.op = DhcpOpBootReply)
    (hht : msg.htype = DhcpHwAddrTypeEthernet) (hhl : msg.hlen = MacAddrSize)
    (hxid : msg.xid = c.m_xid) (hch : msg.chaddr = mac)
    (hmg : msg.magic = DhcpMagicValue) (hpo : msg.parse_ok = true)
    (hhmt : msg.opts.have_dhcp_message_type = true)
    (hmt : msg.opts.dhcp_message_type = MsgAck)
    (hhsi : msg.opts.have_dhcp_server_identifier = true)
    (hfix : checkAndFixupAck msg.yiaddr msg.opts = some opts2)
    (hnexp : TicksToSec p.TimeFreq (now - c.m_request_send_time) <
      opts2.ip_address_lease_time) :
    (processReceivedDhcpMessage p mac server_mac c now src_addr msg).1.m_state =
      DhcpState.Bound ∧
    (processReceivedDhcpMessage p mac server_mac c now src_addr msg).2.sentArpQuery =
      false ∧
    (processReceivedDhcpMessage p mac server_mac c now src_addr msg).1.m_arp_observing =
      c.m_arp_observing ∧
    (processReceivedDhcpMessage p mac server_mac c now src_addr msg).2.event =
      some IpDhcpClientEvent.LeaseObtained := by
  have hge : ¬ (TicksToSec p.TimeFreq (now - c.m_request_send_time) ≥
      opts2.ip_address_lease_time) := not_le.mpr hnexp
  simp [processReceivedDhcpMessage, hst, hlen, hop, hht, hhl, hxid, hch, hmg,
    hpo, hhmt, hmt, hhsi, MsgOffer, MsgAck, MsgNak, hfix, go_bound, hasLease,
    noEffects, hge]

/-- Witness for C10: Rebooting client, ACK 192.0.2.10 accepted at tick 10
(request sent at tick 0, lease 3600 s). -/
theorem rebooting_ack_to_bound_witness :
    (processReceivedDhcpMessage testParams 9 2 testClientRebooting 10 0 testMsgAck).1.m_state =
      DhcpState.Bound ∧
    (processReceivedDhcpMessage testParams 9 2 testClientRebooting 10 0 testMsgAck).2.sentArpQuery =
      false ∧
    (processReceivedDhcpMessage testParams 9 2 testClientRebooting 10 0 testMsgAck).1.m_arp_observing =
      testClientRebooting.m_arp_observing ∧
    (processReceivedDhcpMessage testParams 9 2 testClientRebooting 10 0 testMsgAck).2.event =
      some IpDhcpClientEvent.LeaseObtained :=
  rebooting_ack_to_bound testParams 9 2 testClientRebooting 10 0 testMsgAck
    testAckFixed (by decide) (by decide) (by decide) (by decide) (by decide)
    (by decide) (by decide) (by decide) (by decide) (by decide) (by decide)
    (by decide) (by decide) (by decide)
